import Mathlib

/-!
Verification development for the moltworker gateway supervisor.

The definitions below are a shallow embedding of the TypeScript sources:
`src/gateway/version.ts` (configuration fingerprinting) and the gateway
process module (`isGatewayCurrentVersion`, `findExistingMoltbotProcess`,
`restartMoltbotGateway`, `ensureMoltbotGateway`).  Machine integers are
modelled as `Nat`/`Int` with explicit wrapping where JavaScript wraps;
strings are modelled as Lean strings, with UTF-16 code units made explicit
where the source operates on code units (`charCodeAt`).  Fallible calls to
the sandbox are modelled with `Except`, and the stateful supervisor code is
modelled as explicit state passing over a sandbox-state record, together
with an event trace that records the order of the effectful calls.
-/

set_option autoImplicit false
set_option maxRecDepth 4000

deriving instance DecidableEq for Except

namespace Moltworker

/-! ### UTF-16 code units

JavaScript strings are sequences of UTF-16 code units; `charCodeAt` and
`JSON.stringify` operate on code units.  A Lean `Char` holding a
supplementary-plane scalar corresponds to a surrogate pair of two units. -/

def charUnits (c : Char) : List Nat :=
  let n := c.toNat
  if n < 65536 then [n]
  else
    let m := n - 65536
    [55296 + m / 1024, 56320 + m % 1024]

def strUnits (s : String) : List Nat :=
  (s.data.map charUnits).flatten

/-! ### djb2 hash (`djb2Hash` in `src/gateway/version.ts`)

The source computes `hash = ((hash << 5) + hash) + str.charCodeAt(i)`
followed by `hash = hash >>> 0`.  JavaScript `<<` first coerces its left
operand with ToInt32 and wraps the shifted result to a signed 32-bit
integer; `>>> 0` folds the (exactly representable) sum to an unsigned
32-bit integer.  We embed those coercions literally. -/

def int32Wrap (x : Int) : Int :=
  let r := x % 4294967296
  if r < 2147483648 then r else r - 4294967296

def uint32Wrap (x : Int) : Nat :=
  (x % 4294967296).toNat

/-- One step of the source loop body, with the JavaScript coercions spelled
out: `((hash << 5) + hash + c) >>> 0` for a current accumulator `hash` that
is an unsigned 32-bit value. -/
def djb2Step (hash : Nat) (c : Nat) : Nat :=
  uint32Wrap (int32Wrap (int32Wrap (hash : Int) * 32) + (hash : Int) + (c : Nat))

def djb2Fold (units : List Nat) : Nat :=
  units.foldl djb2Step 5381

/-! ### Hex rendering (`hash.toString(16).padStart(8, '0')`) -/

def hexDigitChar (n : Nat) : Char :=
  if n < 10 then Char.ofNat (48 + n) else Char.ofNat (87 + n)

/-- Least-significant-first hex digits of `n`, as produced by repeated
division by 16 (the mathematical content of `Number.prototype.toString(16)`
for whole numbers).  Fuel-based so that the definition is executable by the
kernel; 32 digits of fuel cover every value that can arise here. -/
def toHexRevAux : Nat → Nat → List Char
  | 0, _ => []
  | fuel + 1, n =>
    if n < 16 then [hexDigitChar n]
    else hexDigitChar (n % 16) :: toHexRevAux fuel (n / 16)

/-- Hex digits of `n`, most significant first. -/
def natToHex (n : Nat) : String :=
  ⟨(toHexRevAux 32 n).reverse⟩

def padStart8 (s : String) : String :=
  ⟨List.replicate (8 - s.length) '0' ++ s.data⟩

/-- `djb2Hash` from `src/gateway/version.ts`, applied to the code units of
its argument string. -/
def djb2HashUnits (units : List Nat) : String :=
  padStart8 (natToHex (djb2Fold units))

def djb2Hash (s : String) : String :=
  djb2HashUnits (strUnits s)

/-! ### JSON serialization (`JSON.stringify(relevantConfig)`)

Serialization works at the level of UTF-16 code units.  `QuoteJSONString`
escapes the double quote, the backslash, the named control characters,
other C0 controls as a four-digit lowercase `\uXXXX` escape, and (since
well-formed `JSON.stringify`) lone surrogates as `\uXXXX`; a proper
surrogate pair is passed through.  Code unit values: 34 `"` , 92 `\` ,
58 `:` , 44 `,` , 123 and 125 are the braces. -/

def hexDigitUnit (n : Nat) : Nat :=
  if n < 10 then 48 + n else 87 + n

/-- `\uXXXX` escape of one code unit (92 is the backslash, 117 is `u`). -/
def unicodeEscape (c : Nat) : List Nat :=
  [92, 117, hexDigitUnit (c / 4096 % 16), hexDigitUnit (c / 256 % 16),
   hexDigitUnit (c / 16 % 16), hexDigitUnit (c % 16)]

/-- Escape of a single code unit outside a surrogate pair. -/
def escapeUnit (c : Nat) : List Nat :=
  if c = 34 then [92, 34]
  else if c = 92 then [92, 92]
  else if c = 8 then [92, 98]
  else if c = 9 then [92, 116]
  else if c = 10 then [92, 110]
  else if c = 12 then [92, 102]
  else if c = 13 then [92, 114]
  else if c < 32 then unicodeEscape c
  else if 55296 ≤ c && c ≤ 57343 then unicodeEscape c
  else [c]

def isLeadSurrogate (c : Nat) : Bool := 55296 ≤ c && c ≤ 56319

def isTrailSurrogate (c : Nat) : Bool := 56320 ≤ c && c ≤ 57343

def jsonEscapeUnits : List Nat → List Nat
  | [] => []
  | [c] => escapeUnit c
  | c :: c2 :: rest =>
    if isLeadSurrogate c && isTrailSurrogate c2 then
      c :: c2 :: jsonEscapeUnits rest
    else escapeUnit c ++ jsonEscapeUnits (c2 :: rest)

/-- A JSON string literal: quote, escaped body, quote. -/
def jsonQuote (s : String) : List Nat :=
  [34] ++ jsonEscapeUnits (strUnits s) ++ [34]

/-! ### Configuration snapshot (`MoltbotEnv` projection in
`computeConfigHash`, `src/gateway/version.ts`)

Each field is an optional environment string; the source defaults each to
the empty string with `|| ''` (which also maps an empty string to itself,
so `Option.getD ""` is an exact model). -/

structure MoltbotEnv where
  MOLTBOT_GATEWAY_TOKEN : Option String
  AI_GATEWAY_API_KEY : Option String
  AI_GATEWAY_BASE_URL : Option String
  ANTHROPIC_API_KEY : Option String
  ANTHROPIC_BASE_URL : Option String
  OPENAI_API_KEY : Option String
  TELEGRAM_BOT_TOKEN : Option String
  TELEGRAM_DM_POLICY : Option String
  DISCORD_BOT_TOKEN : Option String
  DISCORD_DM_POLICY : Option String
  SLACK_BOT_TOKEN : Option String
  SLACK_APP_TOKEN : Option String
  DEV_MODE : Option String
  CLAWDBOT_BIND_MODE : Option String
deriving DecidableEq

/-- The tracked key/value pairs of `relevantConfig`, in source order. -/
def relevantConfig (env : MoltbotEnv) : List (String × String) :=
  [("gatewayToken", env.MOLTBOT_GATEWAY_TOKEN.getD ""),
   ("aiGatewayApiKey", env.AI_GATEWAY_API_KEY.getD ""),
   ("aiGatewayBaseUrl", env.AI_GATEWAY_BASE_URL.getD ""),
   ("anthropicApiKey", env.ANTHROPIC_API_KEY.getD ""),
   ("anthropicBaseUrl", env.ANTHROPIC_BASE_URL.getD ""),
   ("openaiApiKey", env.OPENAI_API_KEY.getD ""),
   ("telegramToken", env.TELEGRAM_BOT_TOKEN.getD ""),
   ("telegramPolicy", env.TELEGRAM_DM_POLICY.getD ""),
   ("discordToken", env.DISCORD_BOT_TOKEN.getD ""),
   ("discordPolicy", env.DISCORD_DM_POLICY.getD ""),
   ("slackBotToken", env.SLACK_BOT_TOKEN.getD ""),
   ("slackAppToken", env.SLACK_APP_TOKEN.getD ""),
   ("devMode", env.DEV_MODE.getD ""),
   ("bindMode", env.CLAWDBOT_BIND_MODE.getD "")]

/-- `JSON.stringify(relevantConfig)` as a list of code units.  No spacing:
`\x7b"k":"v","k2":"v2",...\x7d`. -/
def serializeConfigUnits (env : MoltbotEnv) : List Nat :=
  [123] ++
    (List.intercalate [44]
      ((relevantConfig env).map fun kv => jsonQuote kv.1 ++ [58] ++ jsonQuote kv.2)) ++
  [125]

/-- `computeConfigHash` from `src/gateway/version.ts`: the djb2 hash of the
serialized tracked configuration fields. -/
def computeConfigHash (env : MoltbotEnv) : String :=
  djb2HashUnits (serializeConfigUnits env)

/-- An environment with every binding absent, used as a concrete input. -/
def envAllAbsent : MoltbotEnv :=
  ⟨none, none, none, none, none, none, none, none, none, none, none, none, none, none⟩

/-! ### JavaScript `String.prototype.trim`

`trim` removes the WhiteSpace and LineTerminator code points from both
ends: TAB LF VT FF CR SP NBSP, the Zs category, LS PS, NARROW NBSP,
MMSP, IDEOGRAPHIC SPACE, and ZWNBSP. -/

def wsCodes : List Nat :=
  [9, 10, 11, 12, 13, 32, 160, 5760, 8192, 8193, 8194, 8195, 8196, 8197,
   8198, 8199, 8200, 8201, 8202, 8232, 8233, 8239, 8287, 12288, 65279]

def jsWhitespaceChar (c : Char) : Bool :=
  decide (c.toNat ∈ wsCodes)

def trimList (l : List Char) : List Char :=
  (((l.dropWhile jsWhitespaceChar).reverse.dropWhile jsWhitespaceChar)).reverse

def jsTrim (s : String) : String :=
  ⟨trimList s.data⟩

/-! ### Substring search (`String.prototype.includes`) -/

def containsSeq (needle : List Char) : List Char → Bool
  | [] => needle.isPrefixOf []
  | c :: rest => needle.isPrefixOf (c :: rest) || containsSeq needle rest

def strIncludes (hay needle : String) : Bool :=
  containsSeq needle.data hay.data

/-! ### Model of the sandbox error values

Errors raised by the sandbox primitives are opaque JavaScript errors; the
supervisor only ever forwards them, formats `error.message`, or constructs
one new `Error` of its own (the startup-failure error carrying the
captured stderr).  The constructor arguments record which process the
error concerned. -/

inductive JsErr where
  | listFailed : JsErr
  | probeFailed : JsErr
  | spawnFailed : JsErr
  | portTimeout : Nat → JsErr
  | logsFailed : Nat → JsErr
  | killFailed : Nat → JsErr
  | startupFailure : String → JsErr
deriving DecidableEq

/-- The `message` of the modelled error (`error instanceof Error ?
error.message : 'unknown'`).  The sandbox collaborator does not document
its message strings, so the sandbox constructors carry fixed placeholder
messages. -/
def JsErr.message : JsErr → String
  | .listFailed => "listProcesses failed"
  | .probeFailed => "startProcess read failed"
  | .spawnFailed => "startProcess failed"
  | .portTimeout _ => "waitForPort timed out"
  | .logsFailed _ => "getLogs failed"
  | .killFailed _ => "kill failed"
  | .startupFailure m => m

/-! ### Process handles and captured logs -/

inductive ProcStatus where
  | starting : ProcStatus
  | running : ProcStatus
  | exited : ProcStatus
  | unknown : ProcStatus
deriving DecidableEq

structure Process where
  id : Nat
  command : String
  status : ProcStatus
deriving DecidableEq

structure Logs where
  stdout : Option String
  stderr : Option String
deriving DecidableEq

/-! ### Version check (`isGatewayCurrentVersion`) -/

structure VersionCheckResult where
  current : Bool
  expectedHash : String
  runningHash : Option String
  reason : Option String
deriving DecidableEq

def preVersionReason : String :=
  "No config hash found in container (pre-version gateway)"

def mismatchReason (running expected : String) : String :=
  "Hash mismatch: running=" ++ running ++ ", expected=" ++ expected

def readFailReason (msg : String) : String :=
  "Failed to read config hash: " ++ msg

/-- The body of `isGatewayCurrentVersion` as a function of the outcome of
the fingerprint read (the `startProcess('cat ...')` probe followed by
`getLogs`): the `try` block on the `ok` outcome, the `catch` block on the
`error` outcome.  `(logs.stdout || '').trim()` becomes
`jsTrim (stdout.getD "")`. -/
def versionCheckOutcome (expectedHash : String) (r : Except JsErr Logs) :
    VersionCheckResult :=
  match r with
  | .error e =>
    ⟨false, expectedHash, none, some (readFailReason e.message)⟩
  | .ok logs =>
    let runningHash := jsTrim (logs.stdout.getD "")
    if runningHash = "" then
      ⟨false, expectedHash, none, some preVersionReason⟩
    else if runningHash ≠ expectedHash then
      ⟨false, expectedHash, some runningHash, some (mismatchReason runningHash expectedHash)⟩
    else
      ⟨true, expectedHash, some runningHash, none⟩

/-! ### Process matching (`findExistingMoltbotProcess`) -/

def isGatewayProcessCmd (cmd : String) : Bool :=
  strIncludes cmd "start-moltbot.sh" || strIncludes cmd "clawdbot gateway"

def isCliCommandCmd (cmd : String) : Bool :=
  strIncludes cmd "clawdbot devices" || strIncludes cmd "clawdbot --version"

/-- The loop body condition of `findExistingMoltbotProcess`: the process is
returned iff it matches the gateway command, is not a CLI invocation, and
its status is starting or running. -/
def gatewayMatch (p : Process) : Bool :=
  (isGatewayProcessCmd p.command && !(isCliCommandCmd p.command)) &&
    (p.status == ProcStatus.starting || p.status == ProcStatus.running)

/-- `findExistingMoltbotProcess` as a function of the `listProcesses`
outcome: the `catch` branch yields `none`; otherwise the first process
satisfying the loop condition is returned. -/
def findExistingCore (r : Except JsErr (List Process)) : Option Process :=
  match r with
  | .error _ => none
  | .ok procs => procs.find? gatewayMatch

/-! ### Constants from `../config`

The config module itself is not among the available sources.  Modelled
from the spec: the fixed listening port and the startup timeout are
process-wide constants shared by all operations.  The port value 18789 is
hardcoded in the routes source; the numeric timeout value is not recorded
anywhere in the available sources and no claim depends on it — claims use
the constant symbolically. -/

def MOLTBOT_PORT : Nat := 18789

def STARTUP_TIMEOUT_MS : Nat := 300000

def gatewayCommand : String := "/usr/local/bin/start-moltbot.sh"

/-! ### Sandbox state and event traces

The sandbox is the external execution environment.  Its observable state
is the process table and the persisted fingerprint file; its behavior
(whether each primitive succeeds) is captured by boolean reliability
flags, so that one state value fixes the outcome of every primitive the
supervisor may issue.  Every effectful call is recorded in an event
trace, in issue order, so that the ordering and frame claims can be
stated over traces. -/

inductive Event where
  | mount : Event
  | list : Event
  | probeRead : Event
  | kill : Nat → Event
  | settle : Nat → Event
  | start : Nat → Event
  | waitPort : Nat → Nat → Nat → Event
  | getLogs : Nat → Event
deriving DecidableEq

structure SBState where
  procs : List Process
  nextId : Nat
  hashFile : Option String
  gatewayLogs : Logs
  listOk : Bool
  probeOk : Bool
  startOk : Bool
  portReady : Bool
  logsOk : Bool
  killOk : Bool
deriving DecidableEq

structure StepResult (α : Type) where
  res : Except JsErr α
  st : SBState
  tr : List Event

/-- A supervisor computation: state in, result plus state plus trace out. -/
def M (α : Type) : Type := SBState → StepResult α

def pureM {α : Type} (a : α) : M α := fun s => ⟨.ok a, s, []⟩

def throwM {α : Type} (e : JsErr) : M α := fun s => ⟨.error e, s, []⟩

/-- Sequencing (`await` then continue); an error short-circuits, traces
accumulate in order. -/
def bindM {α β : Type} (x : M α) (f : α → M β) : M β := fun s =>
  let r := x s
  match r.res with
  | .error e => ⟨.error e, r.st, r.tr⟩
  | .ok a =>
    let r2 := f a r.st
    ⟨r2.res, r2.st, r.tr ++ r2.tr⟩

/-- `try x catch (e) h(e)`. -/
def tryCatchM {α : Type} (x : M α) (h : JsErr → M α) : M α := fun s =>
  let r := x s
  match r.res with
  | .ok a => ⟨.ok a, r.st, r.tr⟩
  | .error e =>
    let r2 := h e r.st
    ⟨r2.res, r2.st, r.tr ++ r2.tr⟩

/-! ### Sandbox primitives -/

/-- Modelled from the spec: `mountR2Storage` (its source module is not
among the available sources) is the storage-mount collaborator —
best-effort, idempotent, failures logged and never propagated, so it
never throws toward the supervisor. -/
def mountR2Storage : M Unit := fun s => ⟨.ok (), s, [Event.mount]⟩

def listProcessesRes (s : SBState) : Except JsErr (List Process) :=
  if s.listOk then .ok s.procs else .error JsErr.listFailed

/-- Outcome of the fingerprint probe, `startProcess('cat
/tmp/gateway-config-hash 2>/dev/null || echo \x22\x22')` followed by a
settle delay and `getLogs`: on success the captured stdout is the file
content, or the empty string when the file is absent. -/
def probeRes (s : SBState) : Except JsErr Logs :=
  if s.probeOk then .ok ⟨some (s.hashFile.getD ""), some ""⟩
  else .error JsErr.probeFailed

/-- `findExistingMoltbotProcess`: lists the process table, absorbing
listing failures into `none`. -/
def findExistingMoltbotProcess : M (Option Process) := fun s =>
  ⟨.ok (findExistingCore (listProcessesRes s)), s, [Event.list]⟩

/-- `isGatewayCurrentVersion`: computes the expected hash, issues the
fingerprint probe and classifies its outcome; the surrounding `try` means
the call itself never throws. -/
def isGatewayCurrentVersion (env : MoltbotEnv) : M VersionCheckResult := fun s =>
  ⟨.ok (versionCheckOutcome (computeConfigHash env) (probeRes s)), s,
   [Event.probeRead]⟩

def killInTable (procs : List Process) (id : Nat) : List Process :=
  procs.map fun q => if q.id = id then { q with status := ProcStatus.exited } else q

/-- `existingProcess.kill()`: marks the process exited; termination is
asynchronous but the table update is the observable effect here. -/
def killM (p : Process) : M Unit := fun s =>
  if s.killOk then
    ⟨.ok (), { s with procs := killInTable s.procs p.id }, [Event.kill p.id]⟩
  else ⟨.error (JsErr.killFailed p.id), s, [Event.kill p.id]⟩

def settleM (ms : Nat) : M Unit := fun s => ⟨.ok (), s, [Event.settle ms]⟩

/-- `sandbox.startProcess(command, \x7benv\x7d)` for the gateway command.
On success a fresh handle is appended to the table; the started gateway
persists the fingerprint of the configuration it was started with as a
side effect of its own startup (modelled from the spec — the startup
script is an external collaborator). -/
def startProcessM (cfgHash : String) : M Process := fun s =>
  if s.startOk then
    let p : Process := ⟨s.nextId, gatewayCommand, ProcStatus.running⟩
    ⟨.ok p,
     { s with procs := s.procs ++ [p], nextId := s.nextId + 1,
              hashFile := some cfgHash },
     [Event.start s.nextId]⟩
  else ⟨.error JsErr.spawnFailed, s, [Event.start s.nextId]⟩

/-- `process.waitForPort(MOLTBOT_PORT, \x7bmode: 'tcp', timeout:
STARTUP_TIMEOUT_MS\x7d)`. -/
def waitPortM (p : Process) : M Unit := fun s =>
  if s.portReady then
    ⟨.ok (), s, [Event.waitPort p.id MOLTBOT_PORT STARTUP_TIMEOUT_MS]⟩
  else ⟨.error (JsErr.portTimeout p.id), s,
        [Event.waitPort p.id MOLTBOT_PORT STARTUP_TIMEOUT_MS]⟩

/-- `process.getLogs()`. -/
def getLogsM (p : Process) : M Logs := fun s =>
  if s.logsOk then ⟨.ok s.gatewayLogs, s, [Event.getLogs p.id]⟩
  else ⟨.error (JsErr.logsFailed p.id), s, [Event.getLogs p.id]⟩

/-! ### The supervisor operations -/

/-- The message of the error constructed on a failed fresh start:
`Moltbot gateway failed to start. Stderr: ` followed by the captured
stderr, or `(empty)` when stderr is absent or empty. -/
def startupFailMsg (stderrOpt : Option String) : String :=
  "Moltbot gateway failed to start. Stderr: " ++
    (match stderrOpt with
     | some st => if st = "" then "(empty)" else st
     | none => "(empty)")

/-- The fresh-start tail of `ensureMoltbotGateway` (start a new gateway,
wait for the port, log the output).  The `try` around `startProcess` in
the source only logs and rethrows, so it is the identity on outcomes.
The outer `try` covers both the readiness wait and the success-path
`getLogs`; its `catch (e)` retries `getLogs` and throws the constructed
startup-failure error — but that `throw` sits inside the same inner `try`
whose `catch (logErr)` rethrows `e`, so the constructed error never
escapes. -/
def ensureFreshStart (env : MoltbotEnv) : M Process :=
  bindM (startProcessM (computeConfigHash env)) (fun p =>
  bindM
    (tryCatchM
      (bindM (waitPortM p) (fun _ =>
       bindM (getLogsM p) (fun _ => pureM ())))
      (fun e =>
        tryCatchM
          (bindM (getLogsM p) (fun logs =>
           throwM (JsErr.startupFailure (startupFailMsg logs.stderr))))
          (fun _logErr => throwM e)))
    (fun _ => pureM p))

/-- `ensureMoltbotGateway`: mount storage, locate an existing gateway,
check its fingerprint; reuse it when current and reachable, otherwise
kill (errors swallowed) and fall through to a fresh start. -/
def ensureMoltbotGateway (env : MoltbotEnv) : M Process :=
  bindM mountR2Storage (fun _ =>
  bindM findExistingMoltbotProcess (fun existing =>
  match existing with
  | none => ensureFreshStart env
  | some ex =>
    bindM (isGatewayCurrentVersion env) (fun vc =>
      if vc.current = false then
        bindM
          (tryCatchM (bindM (killM ex) (fun _ => settleM 2000))
            (fun _killError => pureM ()))
          (fun _ => ensureFreshStart env)
      else
        tryCatchM (bindM (waitPortM ex) (fun _ => pureM ex))
          (fun _e =>
            bindM (tryCatchM (killM ex) (fun _killError => pureM ()))
              (fun _ => ensureFreshStart env)))))

/-- `restartMoltbotGateway`: locate and kill any existing gateway
(regardless of fingerprint), then mount storage, start fresh, wait for
the port, and read the logs (the final `getLogs` is not guarded by any
`try`). -/
def restartMoltbotGateway (env : MoltbotEnv) : M Process :=
  bindM findExistingMoltbotProcess (fun existing =>
  bindM
    (match existing with
     | some ex =>
       tryCatchM (bindM (killM ex) (fun _ => settleM 2000))
         (fun _killError => pureM ())
     | none => pureM ())
    (fun _ =>
  bindM mountR2Storage (fun _ =>
  bindM (startProcessM (computeConfigHash env)) (fun p =>
  bindM (waitPortM p) (fun _ =>
  bindM (getLogsM p) (fun _logs => pureM p))))))

/-! ### Trace predicates (for the ordering and frame claims) -/

def isStartEv : Event → Bool
  | .start _ => true
  | _ => false

def isKillEv : Event → Bool
  | .kill _ => true
  | _ => false

def isMountEv : Event → Bool
  | .mount => true
  | _ => false

def isProbeEv : Event → Bool
  | .probeRead => true
  | _ => false

def isStartIdEv (id : Nat) : Event → Bool
  | .start j => j == id
  | _ => false

def isWaitIdEv (id : Nat) : Event → Bool
  | .waitPort j _ _ => j == id
  | _ => false

/-- `precededBy p q tr`: every `q`-event in `tr` has some `p`-event
strictly before it (scanning left to right, meeting a `q` before any `p`
refutes it; once a `p` is seen all later `q`-events are covered). -/
def precededBy (p q : Event → Bool) : List Event → Bool
  | [] => true
  | e :: rest =>
    if q e then false else if p e then true else precededBy p q rest

/-- `noneAfter p q tr`: no `q`-event occurs strictly after any `p`-event. -/
def noneAfter (p q : Event → Bool) : List Event → Bool
  | [] => true
  | e :: rest => (if p e then !(rest.any q) else true) && noneAfter p q rest

/-! ## Lemmas

### The djb2 step: the JavaScript coercions compute multiply-by-33. -/

theorem djb2Step_eq (h c : Nat) :
    djb2Step h c = (h * 33 + c) % 4294967296 := by
  simp only [djb2Step, uint32Wrap, int32Wrap]
  split <;> split <;> omega

theorem djb2Step_lt (h c : Nat) : djb2Step h c < 4294967296 := by
  rw [djb2Step_eq]
  exact Nat.mod_lt _ (by norm_num)

theorem foldl_djb2Step_lt (l : List Nat) (a : Nat) (ha : a < 4294967296) :
    l.foldl djb2Step a < 4294967296 := by
  induction l generalizing a with
  | nil => exact ha
  | cons x xs ih =>
    rw [List.foldl_cons]
    exact ih (djb2Step a x) (djb2Step_lt a x)

theorem djb2Fold_lt (units : List Nat) : djb2Fold units < 4294967296 :=
  foldl_djb2Step_lt units 5381 (by norm_num)

/-! ### Hex rendering: 8 lowercase hex characters. -/

def isLowerHexDigit (c : Char) : Bool :=
  decide (48 ≤ c.toNat ∧ c.toNat ≤ 57) || decide (97 ≤ c.toNat ∧ c.toNat ≤ 102)

theorem hexDigitChar_isHex : ∀ n < 16, isLowerHexDigit (hexDigitChar n) = true := by
  decide

theorem toHexRevAux_length {fuel n k : Nat} (hk1 : 1 ≤ k) (hkf : k ≤ fuel)
    (hn : n < 16 ^ k) : (toHexRevAux fuel n).length ≤ k := by
  induction fuel generalizing n k with
  | zero => omega
  | succ fuel ih =>
    unfold toHexRevAux
    split
    · simpa using hk1
    · rename_i hn16
      have hk2 : 2 ≤ k := by
        rcases Nat.lt_or_ge k 2 with hk | hk
        · interval_cases k <;> simp_all <;> omega
        · exact hk
      have hdiv : n / 16 < 16 ^ (k - 1) := by
        have h16 : 16 ^ k = 16 ^ (k - 1) * 16 := by
          conv_lhs => rw [show k = (k - 1) + 1 by omega]
          rw [pow_succ]
        exact Nat.div_lt_of_lt_mul (by omega)
      have := ih (n := n / 16) (k := k - 1) (by omega) (by omega) hdiv
      simp only [List.length_cons]
      omega

theorem toHexRevAux_mem_isHex {fuel n : Nat} {c : Char}
    (hc : c ∈ toHexRevAux fuel n) : isLowerHexDigit c = true := by
  induction fuel generalizing n with
  | zero => simp [toHexRevAux] at hc
  | succ fuel ih =>
    unfold toHexRevAux at hc
    split at hc
    · rename_i h16
      simp only [List.mem_singleton] at hc
      subst hc
      exact hexDigitChar_isHex n h16
    · rcases List.mem_cons.mp hc with hc | hc
      · subst hc
        exact hexDigitChar_isHex _ (Nat.mod_lt _ (by norm_num))
      · exact ih hc

theorem natToHex_length_le {n : Nat} (hn : n < 4294967296) :
    (natToHex n).length ≤ 8 := by
  have : (toHexRevAux 32 n).length ≤ 8 :=
    toHexRevAux_length (by norm_num) (by norm_num) (by norm_num; omega)
  simpa [natToHex, String.length] using this

theorem natToHex_mem_isHex {n : Nat} {c : Char} (hc : c ∈ (natToHex n).data) :
    isLowerHexDigit c = true := by
  simp only [natToHex, List.mem_reverse] at hc
  exact toHexRevAux_mem_isHex hc

theorem padStart8_length {s : String} (hs : s.length ≤ 8) :
    (padStart8 s).length = 8 := by
  simp only [padStart8, String.length, List.length_append, List.length_replicate]
  simp only [String.length] at hs
  omega

theorem padStart8_mem {s : String} {c : Char} (hc : c ∈ (padStart8 s).data)
    (hs : ∀ d ∈ s.data, isLowerHexDigit d = true) : isLowerHexDigit c = true := by
  simp only [padStart8, List.mem_append, List.mem_replicate] at hc
  rcases hc with ⟨_, rfl⟩ | hc
  · decide
  · exact hs c hc

theorem computeConfigHash_length (env : MoltbotEnv) :
    (computeConfigHash env).length = 8 :=
  padStart8_length (natToHex_length_le (djb2Fold_lt _))

theorem computeConfigHash_mem_isHex (env : MoltbotEnv) {c : Char}
    (hc : c ∈ (computeConfigHash env).data) : isLowerHexDigit c = true :=
  padStart8_mem hc (fun _ hd => natToHex_mem_isHex hd)

theorem computeConfigHash_ne_empty (env : MoltbotEnv) :
    computeConfigHash env ≠ "" := by
  intro h
  have := computeConfigHash_length env
  rw [h] at this
  simp at this

/-! ### Whitespace and trim lemmas -/

theorem isLowerHexDigit_not_ws {c : Char} (hc : isLowerHexDigit c = true) :
    jsWhitespaceChar c = false := by
  simp only [isLowerHexDigit, Bool.or_eq_true, decide_eq_true_eq] at hc
  simp only [jsWhitespaceChar, wsCodes, List.mem_cons, List.not_mem_nil,
    or_false, decide_eq_false_iff_not]
  omega

theorem computeConfigHash_no_ws (env : MoltbotEnv) :
    ∀ c ∈ (computeConfigHash env).data, jsWhitespaceChar c = false :=
  fun _ hc => isLowerHexDigit_not_ws (computeConfigHash_mem_isHex env hc)

theorem dropWhile_eq_self_of_forall {p : Char → Bool} {l : List Char}
    (h : ∀ c ∈ l, p c = false) : l.dropWhile p = l := by
  cases l with
  | nil => rfl
  | cons a l =>
    rw [List.dropWhile_cons_of_neg]
    simp [h a (List.mem_cons_self a l)]

theorem dropWhile_eq_nil_of_forall {p : Char → Bool} {l : List Char}
    (h : ∀ c ∈ l, p c = true) : l.dropWhile p = [] := by
  induction l with
  | nil => rfl
  | cons a l ih =>
    rw [List.dropWhile_cons_of_pos (by simp [h a (List.mem_cons_self a l)])]
    exact ih fun c hc => h c (List.mem_cons_of_mem a hc)

theorem dropWhile_append_all {p : Char → Bool} {l₁ : List Char} (l₂ : List Char)
    (h : ∀ c ∈ l₁, p c = true) :
    (l₁ ++ l₂).dropWhile p = l₂.dropWhile p := by
  induction l₁ with
  | nil => rfl
  | cons a l ih =>
    rw [List.cons_append,
      List.dropWhile_cons_of_pos (by simp [h a (List.mem_cons_self a l)])]
    exact ih fun c hc => h c (List.mem_cons_of_mem a hc)

theorem trimList_eq_self {l : List Char} (h : ∀ c ∈ l, jsWhitespaceChar c = false) :
    trimList l = l := by
  unfold trimList
  rw [dropWhile_eq_self_of_forall h,
    dropWhile_eq_self_of_forall (by simpa using h), List.reverse_reverse]

theorem trimList_all_ws {l : List Char} (h : ∀ c ∈ l, jsWhitespaceChar c = true) :
    trimList l = [] := by
  unfold trimList
  rw [dropWhile_eq_nil_of_forall h]
  rfl

/-- Trimming strips surrounding whitespace and keeps a whitespace-free
core intact. -/
theorem trimList_surround {a b c : List Char}
    (ha : ∀ x ∈ a, jsWhitespaceChar x = true)
    (hc : ∀ x ∈ c, jsWhitespaceChar x = true)
    (hb : ∀ x ∈ b, jsWhitespaceChar x = false) (hbne : b ≠ []) :
    trimList (a ++ b ++ c) = b := by
  unfold trimList
  rw [List.append_assoc, dropWhile_append_all _ ha]
  obtain ⟨x, b', rfl⟩ : ∃ x b', b = x :: b' := by
    cases b with
    | nil => exact absurd rfl hbne
    | cons x b' => exact ⟨x, b', rfl⟩
  have hx : jsWhitespaceChar x = false := hb x (List.mem_cons_self x b')
  have hrest : ∀ y ∈ b'.reverse ++ [x], jsWhitespaceChar y = false := by
    intro y hy
    rcases List.mem_append.mp hy with hy | hy
    · exact hb y (List.mem_cons_of_mem x (List.mem_reverse.mp hy))
    · rw [List.mem_singleton] at hy
      subst hy
      exact hx
  rw [List.cons_append, List.dropWhile_cons_of_neg (by simp [hx]),
    List.reverse_cons, List.reverse_append, List.append_assoc,
    dropWhile_append_all _ (by simpa using hc),
    dropWhile_eq_self_of_forall hrest]
  simp

theorem jsTrim_eq_self {s : String}
    (h : ∀ c ∈ s.data, jsWhitespaceChar c = false) : jsTrim s = s := by
  simp only [jsTrim, trimList_eq_self h]

theorem jsTrim_all_ws {s : String}
    (h : ∀ c ∈ s.data, jsWhitespaceChar c = true) : jsTrim s = "" := by
  simp only [jsTrim, trimList_all_ws h]

theorem jsTrim_hash (env : MoltbotEnv) :
    jsTrim (computeConfigHash env) = computeConfigHash env :=
  jsTrim_eq_self (computeConfigHash_no_ws env)

/-! ### Substring containment lemmas -/

theorem isPrefixOf_append_self (b c : List Char) :
    b.isPrefixOf (b ++ c) = true := by
  induction b with
  | nil => simp [List.isPrefixOf]
  | cons x b ih => simpa [List.isPrefixOf] using ih

theorem containsSeq_of_isPrefixOf {needle hay : List Char}
    (h : needle.isPrefixOf hay = true) : containsSeq needle hay = true := by
  cases hay with
  | nil => simpa [containsSeq] using h
  | cons x rest => simp [containsSeq, h]

theorem containsSeq_append_mid (a b c : List Char) :
    containsSeq b (a ++ b ++ c) = true := by
  induction a with
  | nil =>
    rw [List.nil_append]
    exact containsSeq_of_isPrefixOf (isPrefixOf_append_self b c)
  | cons x a ih =>
    have hx : (x :: a) ++ b ++ c = x :: (a ++ b ++ c) := by simp
    rw [hx]
    unfold containsSeq
    rw [ih]
    simp

theorem data_append (s t : String) : (s ++ t).data = s.data ++ t.data := rfl

theorem strIncludes_mid (a b c : String) :
    strIncludes (a ++ b ++ c) b = true := by
  simp only [strIncludes, data_append]
  exact containsSeq_append_mid a.data b.data c.data

theorem strIncludes_mismatch_running (r e : String) :
    strIncludes (mismatchReason r e) r = true := by
  simp only [strIncludes, mismatchReason, data_append, List.append_assoc]
  rw [← List.append_assoc _ r.data]
  exact containsSeq_append_mid _ r.data _

theorem strIncludes_mismatch_expected (r e : String) :
    strIncludes (mismatchReason r e) e = true := by
  simp only [strIncludes, mismatchReason, data_append]
  have h : (("Hash mismatch: running=".data ++ r.data) ++ ", expected=".data) ++ e.data
      = (("Hash mismatch: running=".data ++ r.data) ++ ", expected=".data) ++ e.data ++ [] := by
    simp
  rw [h]
  exact containsSeq_append_mid _ e.data []

theorem hash_data_ne_nil (env : MoltbotEnv) : (computeConfigHash env).data ≠ [] := by
  intro h
  have := computeConfigHash_length env
  simp only [String.length, h, List.length_nil] at this
  omega

theorem string_eq_of_data {s : String} {l : List Char} (h : s.data = l) :
    s = ⟨l⟩ :=
  congrArg String.mk h

theorem jsTrim_surround_hash (env : MoltbotEnv) (pre suf : String)
    (hpre : ∀ c ∈ pre.data, jsWhitespaceChar c = true)
    (hsuf : ∀ c ∈ suf.data, jsWhitespaceChar c = true) :
    jsTrim (pre ++ computeConfigHash env ++ suf) = computeConfigHash env := by
  have h : (pre ++ computeConfigHash env ++ suf).data
      = pre.data ++ (computeConfigHash env).data ++ suf.data := by
    simp [data_append]
  simp only [jsTrim, h]
  rw [trimList_surround hpre hsuf (computeConfigHash_no_ws env) (hash_data_ne_nil env)]

/-! ## Claims -/

/-- C4: `computeConfigHash` is a deterministic, pure, total function of the
configuration snapshot: equal snapshots give equal results, and the result
is the djb2 hash — seed 5381, multiply-by-33-plus-code-unit folded to
unsigned 32 bits — of the serialized tracked fields, rendered as
zero-padded lowercase hexadecimal of exactly 8 characters. -/
theorem C4_computeConfigHash_spec (e₁ e₂ : MoltbotEnv) (he : e₁ = e₂) :
    computeConfigHash e₁ = computeConfigHash e₂ ∧
    computeConfigHash e₁ =
      padStart8 (natToHex
        ((serializeConfigUnits e₁).foldl
          (fun h c => (h * 33 + c) % 4294967296) 5381)) ∧
    (computeConfigHash e₁).length = 8 ∧
    ∀ c ∈ (computeConfigHash e₁).data, isLowerHexDigit c = true := by
  subst he
  refine ⟨rfl, ?_, computeConfigHash_length e₁,
    fun c hc => computeConfigHash_mem_isHex e₁ hc⟩
  have hstep : djb2Step = fun h c => (h * 33 + c) % 4294967296 := by
    funext h c
    exact djb2Step_eq h c
  simp only [computeConfigHash, djb2HashUnits, djb2Fold, hstep]

/-- Witness for C4 at a concrete snapshot. -/
theorem C4_computeConfigHash_spec_witness :
    computeConfigHash envAllAbsent = computeConfigHash envAllAbsent ∧
    computeConfigHash envAllAbsent =
      padStart8 (natToHex
        ((serializeConfigUnits envAllAbsent).foldl
          (fun h c => (h * 33 + c) % 4294967296) 5381)) ∧
    (computeConfigHash envAllAbsent).length = 8 ∧
    ∀ c ∈ (computeConfigHash envAllAbsent).data, isLowerHexDigit c = true :=
  C4_computeConfigHash_spec envAllAbsent envAllAbsent rfl

/-- C5: `findExistingMoltbotProcess` returns a process only if its command
matches the gateway entry point, is not an auxiliary CLI invocation, and
its status is starting or running; exited or unknown matches are never
returned, and the result is `none` — not an error — when no live match
exists (including when listing itself failed). -/
theorem C5_findExisting_filter :
    (∀ (r : Except JsErr (List Process)) (p : Process),
        findExistingCore r = some p →
          isGatewayProcessCmd p.command = true ∧
          isCliCommandCmd p.command = false ∧
          (p.status = ProcStatus.starting ∨ p.status = ProcStatus.running) ∧
          p.status ≠ ProcStatus.exited ∧ p.status ≠ ProcStatus.unknown) ∧
    (∀ procs : List Process,
        (∀ p ∈ procs, gatewayMatch p = false) →
          findExistingCore (Except.ok procs) = none) ∧
    (∀ e : JsErr, findExistingCore (Except.error e) = none) ∧
    (∀ s : SBState, (findExistingMoltbotProcess s).res =
        Except.ok (findExistingCore (listProcessesRes s))) := by
  refine ⟨?_, ?_, fun _ => rfl, fun _ => rfl⟩
  · intro r p hp
    cases r with
    | error e => simp [findExistingCore] at hp
    | ok procs =>
      have hm : gatewayMatch p = true := List.find?_some hp
      simp only [gatewayMatch, Bool.and_eq_true, Bool.or_eq_true, beq_iff_eq,
        Bool.not_eq_true'] at hm
      obtain ⟨⟨hgw, hcli⟩, hst⟩ := hm
      refine ⟨hgw, hcli, hst, ?_, ?_⟩
      · rcases hst with h | h
        · rw [h]
          intro hcon
          exact absurd hcon (by decide)
        · rw [h]
          intro hcon
          exact absurd hcon (by decide)
      · rcases hst with h | h
        · rw [h]
          intro hcon
          exact absurd hcon (by decide)
        · rw [h]
          intro hcon
          exact absurd hcon (by decide)
  · intro procs h
    simp only [findExistingCore]
    exact List.find?_eq_none.mpr fun p hp => by simp [h p hp]

/-- Witness for C5: a table holding only a CLI-style invocation — sharing
the command family with the gateway — yields no match. -/
theorem C5_findExisting_filter_witness :
    findExistingCore
      (Except.ok [⟨1, "clawdbot devices list", ProcStatus.running⟩]) = none :=
  C5_findExisting_filter.2.1 _ (by decide)

/-- C3: `isGatewayCurrentVersion` never throws and yields exactly one of
the four outcomes — empty (trimmed) read output: not current, no running
hash, pre-version reason; present but different fingerprint: not current,
reason holding both values; matching fingerprint: current; read failure:
not current with a failure reason.  The reason is present iff the result
is not current. -/
theorem C3_versionCheck_outcomes (env : MoltbotEnv) (r : Except JsErr Logs) :
    ((versionCheckOutcome (computeConfigHash env) r).reason.isSome ↔
      (versionCheckOutcome (computeConfigHash env) r).current = false) ∧
    (∀ e, r = Except.error e →
      versionCheckOutcome (computeConfigHash env) r =
        ⟨false, computeConfigHash env, none, some (readFailReason e.message)⟩) ∧
    (∀ logs, r = Except.ok logs → jsTrim (logs.stdout.getD "") = "" →
      versionCheckOutcome (computeConfigHash env) r =
        ⟨false, computeConfigHash env, none, some preVersionReason⟩) ∧
    (∀ logs, r = Except.ok logs → jsTrim (logs.stdout.getD "") ≠ "" →
      jsTrim (logs.stdout.getD "") ≠ computeConfigHash env →
      versionCheckOutcome (computeConfigHash env) r =
        ⟨false, computeConfigHash env, some (jsTrim (logs.stdout.getD "")),
         some (mismatchReason (jsTrim (logs.stdout.getD ""))
                 (computeConfigHash env))⟩ ∧
      strIncludes (mismatchReason (jsTrim (logs.stdout.getD ""))
          (computeConfigHash env)) (jsTrim (logs.stdout.getD "")) = true ∧
      strIncludes (mismatchReason (jsTrim (logs.stdout.getD ""))
          (computeConfigHash env)) (computeConfigHash env) = true) ∧
    (∀ logs, r = Except.ok logs →
      jsTrim (logs.stdout.getD "") = computeConfigHash env →
      versionCheckOutcome (computeConfigHash env) r =
        ⟨true, computeConfigHash env, some (computeConfigHash env), none⟩) ∧
    (∀ s : SBState, (isGatewayCurrentVersion env s).res =
      Except.ok (versionCheckOutcome (computeConfigHash env) (probeRes s))) := by
  refine ⟨?_, ?_, ?_, ?_, ?_, fun _ => rfl⟩
  · cases r with
    | error e => simp [versionCheckOutcome]
    | ok logs =>
      simp only [versionCheckOutcome]
      split
      · simp
      · split
        · simp
        · simp
  · rintro e rfl
    rfl
  · rintro logs rfl hempty
    simp [versionCheckOutcome, hempty]
  · rintro logs rfl hne hmis
    refine ⟨?_, strIncludes_mismatch_running _ _, strIncludes_mismatch_expected _ _⟩
    simp [versionCheckOutcome, hne, hmis]
  · rintro logs rfl heq
    simp [versionCheckOutcome, heq, computeConfigHash_ne_empty env]

/-- Witness for C3 at a concrete input: a whitespace-only read is
classified as the pre-version outcome. -/
theorem C3_versionCheck_outcomes_witness :
    versionCheckOutcome (computeConfigHash envAllAbsent)
        (Except.ok ⟨some " \n", some ""⟩) =
      ⟨false, computeConfigHash envAllAbsent, none, some preVersionReason⟩ :=
  (C3_versionCheck_outcomes envAllAbsent (Except.ok ⟨some " \n", some ""⟩)).2.2.1
    ⟨some " \n", some ""⟩ rfl (by decide)

/-- C10: the fingerprint read output is trimmed before any comparison: a
whitespace-only stdout is classified as the pre-version outcome (not
current, running hash null), and a persisted fingerprint surrounded by
whitespace still compares equal to the expected fingerprint. -/
theorem C10_trim_before_compare (env : MoltbotEnv) (st : Option String)
    (w pre suf : String)
    (hw : ∀ c ∈ w.data, jsWhitespaceChar c = true)
    (hpre : ∀ c ∈ pre.data, jsWhitespaceChar c = true)
    (hsuf : ∀ c ∈ suf.data, jsWhitespaceChar c = true) :
    versionCheckOutcome (computeConfigHash env) (Except.ok ⟨some w, st⟩) =
      ⟨false, computeConfigHash env, none, some preVersionReason⟩ ∧
    (versionCheckOutcome (computeConfigHash env)
        (Except.ok ⟨some (pre ++ computeConfigHash env ++ suf), st⟩)).current
      = true := by
  constructor
  · have hempty : jsTrim w = "" := jsTrim_all_ws hw
    simp [versionCheckOutcome, hempty]
  · have htrim : jsTrim (pre ++ computeConfigHash env ++ suf)
        = computeConfigHash env := jsTrim_surround_hash env pre suf hpre hsuf
    simp [versionCheckOutcome, htrim, computeConfigHash_ne_empty env]

/-- Witness for C10 at concrete whitespace paddings. -/
theorem C10_trim_before_compare_witness :
    versionCheckOutcome (computeConfigHash envAllAbsent)
        (Except.ok ⟨some " \n", none⟩) =
      ⟨false, computeConfigHash envAllAbsent, none, some preVersionReason⟩ ∧
    (versionCheckOutcome (computeConfigHash envAllAbsent)
        (Except.ok ⟨some (" " ++ computeConfigHash envAllAbsent ++ "\n"), none⟩)).current
      = true :=
  C10_trim_before_compare envAllAbsent none " \n" " " "\n"
    (by decide) (by decide) (by decide)

/-! ### Concrete sandbox states for the failure-path claims -/

/-- Empty table, healthy sandbox except the gateway port never becomes
reachable; log retrieval succeeds and captures stderr `boom`. -/
def sbFreshTimeout : SBState :=
  ⟨[], 0, none, ⟨some "out", some "boom"⟩, true, true, true, false, true, true⟩

/-- Empty table, healthy sandbox except `getLogs` always fails; the port
becomes reachable. -/
def sbLogsFail : SBState :=
  ⟨[], 0, none, ⟨some "", some ""⟩, true, true, true, true, false, true⟩

/-- Empty table, healthy sandbox except process spawning fails. -/
def sbSpawnFail : SBState :=
  ⟨[], 0, none, ⟨some "", some ""⟩, true, true, false, true, true, true⟩

/-- C1: the claim says a fresh-start readiness timeout with retrievable
logs fails with the error carrying the captured stderr.  The code belies
it: the constructed startup error is thrown inside the same `try` whose
`catch` rethrows the original timeout error, so at this failing input —
readiness wait times out, log retrieval succeeds with stderr `boom` — the
caller receives the bare original timeout error, never the stderr-carrying
one.  The spec records the evident intent of the error construction, so
this is a defect of the code. -/
theorem C1_timeout_swallows_stderr_error :
    (ensureMoltbotGateway envAllAbsent sbFreshTimeout).res
        = Except.error (JsErr.portTimeout 0) ∧
    sbFreshTimeout.logsOk = true ∧
    (ensureMoltbotGateway envAllAbsent sbFreshTimeout).tr
        = [Event.mount, Event.list, Event.start 0,
           Event.waitPort 0 MOLTBOT_PORT STARTUP_TIMEOUT_MS, Event.getLogs 0] ∧
    (ensureMoltbotGateway envAllAbsent sbFreshTimeout).res
        ≠ Except.error (JsErr.startupFailure (startupFailMsg (some "boom"))) := by
  refine ⟨by decide, rfl, by decide, by decide⟩

/-- C2 counterexample: an introspection (log-read) failure occurring after
a successful readiness wait propagates to the caller of
`ensureMoltbotGateway`, refuting "the caller observes an introspection
error never". -/
theorem C2_logsFail_propagates :
    (ensureMoltbotGateway envAllAbsent sbLogsFail).res
      = Except.error (JsErr.logsFailed 0) := by
  decide

/-! ### Error-propagation analysis -/

/-- `x` can only surface errors satisfying `P`. -/
def errorsOnly {α : Type} (x : M α) (P : JsErr → Prop) : Prop :=
  ∀ s e, (x s).res = Except.error e → P e

theorem errorsOnly_pureM {α : Type} (a : α) (P : JsErr → Prop) :
    errorsOnly (pureM a) P := by
  intro s e h
  simp [pureM] at h

theorem errorsOnly_throwM {α : Type} {e0 : JsErr} {P : JsErr → Prop}
    (h : P e0) : errorsOnly (throwM (α := α) e0) P := by
  intro s e he
  simp only [throwM] at he
  cases he
  exact h

theorem errorsOnly_ok {α : Type} {x : M α} {P : JsErr → Prop}
    (h : ∀ s, ∃ a, (x s).res = Except.ok a) : errorsOnly x P := by
  intro s e he
  obtain ⟨a, ha⟩ := h s
  rw [ha] at he
  cases he

theorem errorsOnly_bindM {α β : Type} {x : M α} {f : α → M β} {P : JsErr → Prop}
    (hx : errorsOnly x P) (hf : ∀ a, errorsOnly (f a) P) :
    errorsOnly (bindM x f) P := by
  intro s e he
  simp only [bindM] at he
  cases hres : (x s).res with
  | error e1 =>
    rw [hres] at he
    simp at he
    exact he ▸ hx s e1 hres
  | ok a =>
    rw [hres] at he
    simp at he
    exact hf a (x s).st e he

theorem errorsOnly_tryCatchM {α : Type} {x : M α} {h : JsErr → M α}
    {P Q : JsErr → Prop} (hx : errorsOnly x Q)
    (hh : ∀ e, Q e → errorsOnly (h e) P) :
    errorsOnly (tryCatchM x h) P := by
  intro s e he
  simp only [tryCatchM] at he
  cases hres : (x s).res with
  | ok a =>
    rw [hres] at he
    simp at he
  | error e1 =>
    rw [hres] at he
    simp at he
    exact hh e1 (hx s e1 hres) (x s).st e he

/-- The error set the supervisor can actually surface. -/
def supervisorErr (e : JsErr) : Prop :=
  e = JsErr.spawnFailed ∨ (∃ id, e = JsErr.portTimeout id) ∨
    (∃ id, e = JsErr.logsFailed id)

theorem errorsOnly_startProcessM (h : String) :
    errorsOnly (startProcessM h) supervisorErr := by
  intro s e he
  simp only [startProcessM] at he
  split at he
  · cases he
  · cases he
    exact Or.inl rfl

theorem errorsOnly_waitPortM (p : Process) :
    errorsOnly (waitPortM p) supervisorErr := by
  intro s e he
  simp only [waitPortM] at he
  split at he
  · cases he
  · cases he
    exact Or.inr (Or.inl ⟨p.id, rfl⟩)

theorem errorsOnly_getLogsM (p : Process) :
    errorsOnly (getLogsM p) supervisorErr := by
  intro s e he
  simp only [getLogsM] at he
  split at he
  · cases he
  · cases he
    exact Or.inr (Or.inr ⟨p.id, rfl⟩)

theorem errorsOnly_killSwallowed (p : Process) (P : JsErr → Prop) :
    errorsOnly
      (tryCatchM (bindM (killM p) (fun _ => settleM 2000))
        (fun _killError => pureM ())) P := by
  refine errorsOnly_tryCatchM (Q := fun _ => True) ?_ ?_
  · intro s e _
    trivial
  · intro e _
    exact errorsOnly_pureM () P

theorem errorsOnly_ensureFreshStart (env : MoltbotEnv) :
    errorsOnly (ensureFreshStart env) supervisorErr := by
  unfold ensureFreshStart
  refine errorsOnly_bindM (errorsOnly_startProcessM _) fun p => ?_
  refine errorsOnly_bindM ?_ fun _ => errorsOnly_pureM p supervisorErr
  refine errorsOnly_tryCatchM (Q := supervisorErr) ?_ ?_
  · refine errorsOnly_bindM (errorsOnly_waitPortM p) fun _ => ?_
    exact errorsOnly_bindM (errorsOnly_getLogsM p)
      fun _ => errorsOnly_pureM () supervisorErr
  · intro e hQ
    refine errorsOnly_tryCatchM (Q := fun _ => True) ?_ ?_
    · intro s e2 _
      trivial
    · intro e2 _
      exact errorsOnly_throwM hQ

theorem errorsOnly_ensure (env : MoltbotEnv) :
    errorsOnly (ensureMoltbotGateway env) supervisorErr := by
  unfold ensureMoltbotGateway
  refine errorsOnly_bindM (errorsOnly_ok fun s => ⟨(), rfl⟩) fun _ => ?_
  refine errorsOnly_bindM (errorsOnly_ok fun s => ⟨_, rfl⟩) fun existing => ?_
  cases existing with
  | none => exact errorsOnly_ensureFreshStart env
  | some ex =>
    refine errorsOnly_bindM (errorsOnly_ok fun s => ⟨_, rfl⟩) fun vc => ?_
    by_cases hvc : vc.current = false
    · rw [if_pos hvc]
      refine errorsOnly_bindM ?_ fun _ => errorsOnly_ensureFreshStart env
      exact errorsOnly_killSwallowed ex supervisorErr
    · rw [if_neg hvc]
      refine errorsOnly_tryCatchM (Q := supervisorErr) ?_ ?_
      · exact errorsOnly_bindM (errorsOnly_waitPortM ex)
          fun _ => errorsOnly_pureM ex supervisorErr
      · intro e _
        refine errorsOnly_bindM ?_ fun _ => errorsOnly_ensureFreshStart env
        refine errorsOnly_tryCatchM (Q := fun _ => True) ?_ ?_
        · intro s e2 _
          trivial
        · intro e2 _
          exact errorsOnly_pureM () supervisorErr

theorem errorsOnly_restart (env : MoltbotEnv) :
    errorsOnly (restartMoltbotGateway env) supervisorErr := by
  unfold restartMoltbotGateway
  refine errorsOnly_bindM (errorsOnly_ok fun s => ⟨_, rfl⟩) fun existing => ?_
  refine errorsOnly_bindM ?_ fun _ => ?_
  · cases existing with
    | some ex =>
      exact errorsOnly_killSwallowed ex supervisorErr
    | none => exact errorsOnly_pureM () supervisorErr
  · refine errorsOnly_bindM (errorsOnly_ok fun s => ⟨(), rfl⟩) fun _ => ?_
    refine errorsOnly_bindM (errorsOnly_startProcessM _) fun p => ?_
    refine errorsOnly_bindM (errorsOnly_waitPortM p) fun _ => ?_
    exact errorsOnly_bindM (errorsOnly_getLogsM p)
      fun _ => errorsOnly_pureM p supervisorErr

/-- C2 (amended): listing and fingerprint-read failures are never
propagated by any of the three operations — listing failures collapse to
"no match found" and fingerprint-read failures to "not current" — and
every error the two supervisor operations can surface is a spawn failure,
a readiness timeout, or a log-read failure.  (As the counterexample
records, a log-read failure after a successful readiness wait does
propagate, so the original "never, even after a successful readiness
wait" is false.) -/
theorem C2_introspection_downgraded (env : MoltbotEnv) (s : SBState) :
    (∀ e, (ensureMoltbotGateway env s).res = Except.error e →
        (e ≠ JsErr.listFailed ∧ e ≠ JsErr.probeFailed) ∧ supervisorErr e) ∧
    (∀ e, (restartMoltbotGateway env s).res = Except.error e →
        (e ≠ JsErr.listFailed ∧ e ≠ JsErr.probeFailed) ∧ supervisorErr e) ∧
    ((findExistingMoltbotProcess s).res
        = Except.ok (findExistingCore (listProcessesRes s))) ∧
    (∀ e, findExistingCore (Except.error e) = none) ∧
    ((isGatewayCurrentVersion env s).res
        = Except.ok (versionCheckOutcome (computeConfigHash env) (probeRes s))) ∧
    (∀ e, (versionCheckOutcome (computeConfigHash env)
        (Except.error e)).current = false) := by
  have hni : ∀ e, supervisorErr e → e ≠ JsErr.listFailed ∧ e ≠ JsErr.probeFailed := by
    intro e he
    rcases he with rfl | ⟨id, rfl⟩ | ⟨id, rfl⟩ <;> exact ⟨by simp, by simp⟩
  refine ⟨?_, ?_, rfl, fun _ => rfl, rfl, fun _ => rfl⟩
  · intro e he
    have := errorsOnly_ensure env s e he
    exact ⟨hni e this, this⟩
  · intro e he
    have := errorsOnly_restart env s e he
    exact ⟨hni e this, this⟩

/-- Witness for C2 (amended) at a concrete input: a failed spawn surfaces
as the spawn error, which is not an introspection error. -/
theorem C2_introspection_downgraded_witness :
    (JsErr.spawnFailed ≠ JsErr.listFailed ∧
        JsErr.spawnFailed ≠ JsErr.probeFailed) ∧
      supervisorErr JsErr.spawnFailed :=
  (C2_introspection_downgraded envAllAbsent sbSpawnFail).1
    JsErr.spawnFailed (by decide)

/-! ### The reuse path -/

/-- When the probe succeeds and the persisted fingerprint trims to the
expected hash, the version check reports current. -/
theorem versionCheck_current (env : MoltbotEnv) (s : SBState)
    (hprobe : s.probeOk = true)
    (hhash : jsTrim (s.hashFile.getD "") = computeConfigHash env) :
    versionCheckOutcome (computeConfigHash env) (probeRes s) =
      ⟨true, computeConfigHash env, some (computeConfigHash env), none⟩ := by
  rw [probeRes, if_pos hprobe]
  simp only [versionCheckOutcome, Option.getD_some, hhash]
  simp [computeConfigHash_ne_empty env]

/-- C6: on the reuse path — an existing located process whose fingerprint
is current and whose port becomes reachable — the returned handle is the
located one itself, no kill and no process start is invoked, and the
readiness wait on the listening port uses the full startup timeout
(whatever status the located process reports). -/
theorem C6_reuse_same_handle (env : MoltbotEnv) (s : SBState) (ex : Process)
    (hfind : findExistingCore (listProcessesRes s) = some ex)
    (hprobe : s.probeOk = true)
    (hhash : jsTrim (s.hashFile.getD "") = computeConfigHash env)
    (hport : s.portReady = true) :
    (ensureMoltbotGateway env s).res = Except.ok ex ∧
    (ensureMoltbotGateway env s).tr.any isStartEv = false ∧
    (ensureMoltbotGateway env s).tr.any isKillEv = false ∧
    Event.waitPort ex.id MOLTBOT_PORT STARTUP_TIMEOUT_MS
      ∈ (ensureMoltbotGateway env s).tr := by
  have hvc := versionCheck_current env s hprobe hhash
  simp [ensureMoltbotGateway, bindM, tryCatchM, mountR2Storage,
    findExistingMoltbotProcess, isGatewayCurrentVersion, waitPortM, pureM,
    hfind, hvc, hport, isStartEv, isKillEv]

/-- Witness for C6 at a concrete sandbox state. -/
theorem C6_reuse_same_handle_witness :
    (ensureMoltbotGateway envAllAbsent
        ⟨[⟨5, "clawdbot gateway", ProcStatus.running⟩], 9,
         some (computeConfigHash envAllAbsent), ⟨some "", some ""⟩,
         true, true, true, true, true, true⟩).res
      = Except.ok ⟨5, "clawdbot gateway", ProcStatus.running⟩ ∧
    (ensureMoltbotGateway envAllAbsent
        ⟨[⟨5, "clawdbot gateway", ProcStatus.running⟩], 9,
         some (computeConfigHash envAllAbsent), ⟨some "", some ""⟩,
         true, true, true, true, true, true⟩).tr.any isStartEv = false ∧
    (ensureMoltbotGateway envAllAbsent
        ⟨[⟨5, "clawdbot gateway", ProcStatus.running⟩], 9,
         some (computeConfigHash envAllAbsent), ⟨some "", some ""⟩,
         true, true, true, true, true, true⟩).tr.any isKillEv = false ∧
    Event.waitPort 5 MOLTBOT_PORT STARTUP_TIMEOUT_MS
      ∈ (ensureMoltbotGateway envAllAbsent
        ⟨[⟨5, "clawdbot gateway", ProcStatus.running⟩], 9,
         some (computeConfigHash envAllAbsent), ⟨some "", some ""⟩,
         true, true, true, true, true, true⟩).tr :=
  C6_reuse_same_handle envAllAbsent _ ⟨5, "clawdbot gateway", ProcStatus.running⟩
    (by decide) rfl (jsTrim_hash envAllAbsent) rfl

/-! ### Idempotence -/

/-- A fresh, fully healthy sandbox: empty process table, no persisted
fingerprint, every primitive reliable, port reachable once started. -/
def healthyState (n : Nat) (gl : Logs) : SBState :=
  ⟨[], n, none, gl, true, true, true, true, true, true⟩

theorem gatewayMatch_fresh (n : Nat) :
    gatewayMatch ⟨n, gatewayCommand, ProcStatus.running⟩ = true := by
  simp only [gatewayMatch]
  decide

/-- Running `ensureMoltbotGateway` on a fresh healthy sandbox starts one
gateway and leaves it in the table with the persisted fingerprint. -/
theorem ensure_healthy_run (env : MoltbotEnv) (n : Nat) (gl : Logs) :
    ensureMoltbotGateway env (healthyState n gl) =
      ⟨Except.ok ⟨n, gatewayCommand, ProcStatus.running⟩,
       ⟨[⟨n, gatewayCommand, ProcStatus.running⟩], n + 1,
        some (computeConfigHash env), gl, true, true, true, true, true, true⟩,
       [Event.mount, Event.list, Event.start n,
        Event.waitPort n MOLTBOT_PORT STARTUP_TIMEOUT_MS, Event.getLogs n]⟩ := by
  simp [ensureMoltbotGateway, ensureFreshStart, bindM, tryCatchM,
    mountR2Storage, findExistingMoltbotProcess, listProcessesRes,
    findExistingCore, startProcessM, waitPortM, getLogsM, pureM, healthyState]

/-- C9: `ensure` is idempotent with respect to process starts — on a
healthy sandbox the first call performs exactly one start, and an
immediately following call with the same configuration performs none,
reusing and returning the handle with the same identity. -/
theorem C9_ensure_idempotent (env : MoltbotEnv) (n : Nat) (gl : Logs) :
    (ensureMoltbotGateway env (healthyState n gl)).res
        = Except.ok ⟨n, gatewayCommand, ProcStatus.running⟩ ∧
    (ensureMoltbotGateway env (healthyState n gl)).tr.countP isStartEv = 1 ∧
    (ensureMoltbotGateway env
        (ensureMoltbotGateway env (healthyState n gl)).st).res
        = Except.ok ⟨n, gatewayCommand, ProcStatus.running⟩ ∧
    (ensureMoltbotGateway env
        (ensureMoltbotGateway env (healthyState n gl)).st).tr.countP isStartEv
        = 0 := by
  have h1 := ensure_healthy_run env n gl
  rw [h1]
  set s1 : SBState :=
    ⟨[⟨n, gatewayCommand, ProcStatus.running⟩], n + 1,
     some (computeConfigHash env), gl, true, true, true, true, true, true⟩ with hs1
  have hfind : findExistingCore (listProcessesRes s1)
      = some ⟨n, gatewayCommand, ProcStatus.running⟩ := by
    simp [listProcessesRes, findExistingCore, hs1, List.find?,
      gatewayMatch_fresh n]
  have h2 := C6_reuse_same_handle env s1 ⟨n, gatewayCommand, ProcStatus.running⟩
    hfind rfl (jsTrim_hash env) rfl
  have hzero : (ensureMoltbotGateway env s1).tr.any isStartEv = false := h2.2.1
  refine ⟨rfl, by simp [List.countP_cons, isStartEv], h2.1, ?_⟩
  exact List.countP_eq_zero.mpr (List.any_eq_false.mp hzero)

/-! ### Ordering of effects, over every sandbox state -/

/-- Trace and result properties of `ensureMoltbotGateway`, by exhaustive
case analysis over the sandbox behavior: every start is preceded by the
storage mount, no kill follows a start, and a returned handle has passed
a readiness wait — on its own id, not preceded by a later start — that
succeeded. -/
theorem ensure_trace_props (env : MoltbotEnv) (s : SBState) :
    precededBy isMountEv isStartEv (ensureMoltbotGateway env s).tr = true ∧
    noneAfter isStartEv isKillEv (ensureMoltbotGateway env s).tr = true ∧
    (∀ p, (ensureMoltbotGateway env s).res = Except.ok p →
      Event.waitPort p.id MOLTBOT_PORT STARTUP_TIMEOUT_MS
          ∈ (ensureMoltbotGateway env s).tr ∧
      s.portReady = true ∧
      noneAfter (isWaitIdEv p.id) (isStartIdEv p.id)
          (ensureMoltbotGateway env s).tr = true) := by
  cases hfind : findExistingCore (listProcessesRes s) with
  | none =>
    cases hstart : s.startOk <;> cases hport : s.portReady <;>
      cases hlogs : s.logsOk <;>
      simp [ensureMoltbotGateway, ensureFreshStart, bindM, tryCatchM,
        mountR2Storage, findExistingMoltbotProcess, isGatewayCurrentVersion,
        startProcessM, waitPortM, getLogsM, killM, settleM, pureM, throwM,
        hfind, hstart, hport, hlogs, precededBy, noneAfter, isMountEv,
        isStartEv, isKillEv, isWaitIdEv, isStartIdEv]
  | some ex =>
    cases hvc : (versionCheckOutcome (computeConfigHash env) (probeRes s)).current <;>
      cases hkill : s.killOk <;> cases hstart : s.startOk <;>
      cases hport : s.portReady <;> cases hlogs : s.logsOk <;>
      simp [ensureMoltbotGateway, ensureFreshStart, bindM, tryCatchM,
        mountR2Storage, findExistingMoltbotProcess, isGatewayCurrentVersion,
        startProcessM, waitPortM, getLogsM, killM, settleM, pureM, throwM,
        hfind, hvc, hkill, hstart, hport, hlogs, precededBy, noneAfter,
        isMountEv, isStartEv, isKillEv, isWaitIdEv, isStartIdEv]

/-- Trace and result properties of `restartMoltbotGateway`, by exhaustive
case analysis: the version comparison is never invoked, any located match
is killed, no kill follows the mount, the mount precedes the start, no
kill follows a start, and a returned handle has passed a successful
readiness wait following its start. -/
theorem restart_trace_props (env : MoltbotEnv) (s : SBState) :
    (restartMoltbotGateway env s).tr.any isProbeEv = false ∧
    (∀ ex, findExistingCore (listProcessesRes s) = some ex →
        Event.kill ex.id ∈ (restartMoltbotGateway env s).tr) ∧
    noneAfter isMountEv isKillEv (restartMoltbotGateway env s).tr = true ∧
    precededBy isMountEv isStartEv (restartMoltbotGateway env s).tr = true ∧
    noneAfter isStartEv isKillEv (restartMoltbotGateway env s).tr = true ∧
    (∀ p, (restartMoltbotGateway env s).res = Except.ok p →
      Event.waitPort p.id MOLTBOT_PORT STARTUP_TIMEOUT_MS
          ∈ (restartMoltbotGateway env s).tr ∧
      s.portReady = true ∧
      noneAfter (isWaitIdEv p.id) (isStartIdEv p.id)
          (restartMoltbotGateway env s).tr = true) := by
  cases hfind : findExistingCore (listProcessesRes s) <;>
    cases hkill : s.killOk <;> cases hstart : s.startOk <;>
    cases hport : s.portReady <;> cases hlogs : s.logsOk <;>
    simp [restartMoltbotGateway, bindM, tryCatchM, mountR2Storage,
      findExistingMoltbotProcess, isGatewayCurrentVersion, startProcessM,
      waitPortM, getLogsM, killM, settleM, pureM, throwM, hfind, hkill,
      hstart, hport, hlogs, precededBy, noneAfter, isMountEv, isStartEv,
      isKillEv, isProbeEv, isWaitIdEv, isStartIdEv]

/-- C7: in every execution of `ensureMoltbotGateway` and
`restartMoltbotGateway`, the storage mount precedes any process start, a
kill of a located existing process precedes the corresponding fresh
start, and a readiness wait on the listening port follows a start and
completes successfully before the handle is returned — no caller
receives a handle that has not passed the port-reachability check. -/
theorem C7_effect_ordering (env : MoltbotEnv) (s : SBState) :
    precededBy isMountEv isStartEv (ensureMoltbotGateway env s).tr = true ∧
    noneAfter isStartEv isKillEv (ensureMoltbotGateway env s).tr = true ∧
    (∀ p, (ensureMoltbotGateway env s).res = Except.ok p →
      Event.waitPort p.id MOLTBOT_PORT STARTUP_TIMEOUT_MS
          ∈ (ensureMoltbotGateway env s).tr ∧
      s.portReady = true ∧
      noneAfter (isWaitIdEv p.id) (isStartIdEv p.id)
          (ensureMoltbotGateway env s).tr = true) ∧
    precededBy isMountEv isStartEv (restartMoltbotGateway env s).tr = true ∧
    noneAfter isStartEv isKillEv (restartMoltbotGateway env s).tr = true ∧
    (∀ p, (restartMoltbotGateway env s).res = Except.ok p →
      Event.waitPort p.id MOLTBOT_PORT STARTUP_TIMEOUT_MS
          ∈ (restartMoltbotGateway env s).tr ∧
      s.portReady = true ∧
      noneAfter (isWaitIdEv p.id) (isStartIdEv p.id)
          (restartMoltbotGateway env s).tr = true) := by
  obtain ⟨e1, e2, e3⟩ := ensure_trace_props env s
  obtain ⟨_, _, _, r4, r5, r6⟩ := restart_trace_props env s
  exact ⟨e1, e2, e3, r4, r5, r6⟩

/-- Witness for C7 on a healthy fresh sandbox: the fresh-start path
returns the started handle after a successful wait following the start. -/
theorem C7_effect_ordering_witness :
    Event.waitPort 3 MOLTBOT_PORT STARTUP_TIMEOUT_MS
        ∈ (ensureMoltbotGateway envAllAbsent
            (healthyState 3 ⟨some "", some ""⟩)).tr ∧
    (healthyState 3 ⟨some "", some ""⟩).portReady = true ∧
    noneAfter (isWaitIdEv 3) (isStartIdEv 3)
        (ensureMoltbotGateway envAllAbsent
          (healthyState 3 ⟨some "", some ""⟩)).tr = true :=
  (C7_effect_ordering envAllAbsent (healthyState 3 ⟨some "", some ""⟩)).2.2.1
    ⟨3, gatewayCommand, ProcStatus.running⟩ (by decide)

/-- A sandbox state holding a live gateway process, for the restart
ordering claims. -/
def sbExistingGateway : SBState :=
  ⟨[⟨5, "clawdbot gateway", ProcStatus.running⟩], 7, some "aaaa1111",
   ⟨some "", some ""⟩, true, true, true, true, true, true⟩

/-- C8 counterexample: the claim orders restart as storage mount first,
then locate-and-kill.  The code does the opposite: on a state with an
existing gateway, the kill (and its settle delay) precede the mount, so
"every kill is preceded by a mount" evaluates to false on the trace. -/
theorem C8_kill_precedes_mount :
    (restartMoltbotGateway envAllAbsent sbExistingGateway).tr
      = [Event.list, Event.kill 5, Event.settle 2000, Event.mount,
         Event.start 7, Event.waitPort 7 MOLTBOT_PORT STARTUP_TIMEOUT_MS,
         Event.getLogs 7] ∧
    precededBy isMountEv isKillEv
      (restartMoltbotGateway envAllAbsent sbExistingGateway).tr = false := by
  refine ⟨by decide, by decide⟩

/-- C8 (amended): `restartMoltbotGateway` unconditionally locates and
kills any existing match regardless of its fingerprint status — never
invoking the version comparison — then mounts storage, then starts a
fresh process and waits for readiness before returning: no kill follows
the mount, the mount precedes the start, and a returned handle has
passed a successful readiness wait. -/
theorem C8_restart_unconditional (env : MoltbotEnv) (s : SBState) :
    (restartMoltbotGateway env s).tr.any isProbeEv = false ∧
    (∀ ex, findExistingCore (listProcessesRes s) = some ex →
        Event.kill ex.id ∈ (restartMoltbotGateway env s).tr) ∧
    noneAfter isMountEv isKillEv (restartMoltbotGateway env s).tr = true ∧
    precededBy isMountEv isStartEv (restartMoltbotGateway env s).tr = true ∧
    (∀ p, (restartMoltbotGateway env s).res = Except.ok p →
      Event.waitPort p.id MOLTBOT_PORT STARTUP_TIMEOUT_MS
          ∈ (restartMoltbotGateway env s).tr ∧ s.portReady = true) := by
  obtain ⟨r1, r2, r3, r4, _, r6⟩ := restart_trace_props env s
  exact ⟨r1, r2, r3, r4, fun p hp => ⟨(r6 p hp).1, (r6 p hp).2.1⟩⟩

/-- Witness for C8 (amended): the located live gateway is killed. -/
theorem C8_restart_unconditional_witness :
    Event.kill 5 ∈ (restartMoltbotGateway envAllAbsent sbExistingGateway).tr :=
  (C8_restart_unconditional envAllAbsent sbExistingGateway).2.1
    ⟨5, "clawdbot gateway", ProcStatus.running⟩ (by decide)

end Moltworker
